import Mathlib

set_option linter.unusedVariables false

/-!
Verification of the getappsh/p-tester synthetic-monitoring probe.

The development embeds the two Python scripts of the repository,
`getapp-test-script.py` (namespace `Script1`) and `getapp-test-script-2.py`
(namespace `Script2`), as pure Lean functions.  The HTTP network is modelled
as an oracle `Nat → RawResult` giving, for the n-th HTTP request a run
issues, either a reply (status code plus a JSON body modelled as a
string-to-string association list) or a raised transport exception.  Every
observable side effect of the scripts (HTTP requests issued, Prometheus
metric increments/observations, gauge increments and decrements, calls to
`time.sleep`) is recorded in order in an event list returned alongside the
result, and session state (`APITester`'s mutable fields) is threaded
explicitly.
-/

namespace GetApp

/-- Python truthiness of an optional string (`None` and `""` are falsy). -/
def truthyOpt : Option String → Bool
  | none => false
  | some s => !s.isEmpty

/-- Python string interpolation of an optional string (`f"{x}"`):
`None` renders as `"None"`. -/
def pyStr : Option String → String
  | none => "None"
  | some s => s

/-- Drop leading `'/'` characters from a character list (Python `lstrip('/')`). -/
def lstripSlashList : List Char → List Char
  | [] => []
  | c :: cs => if c = '/' then lstripSlashList cs else c :: cs

/-- Python `s.lstrip('/')`. -/
def lstripSlash (s : String) : String := ⟨lstripSlashList s.data⟩

/-- Python `s.rstrip('/')` (used on the configured `BASE_URL`). -/
def rstripSlash (s : String) : String := ⟨(lstripSlashList s.data.reverse).reverse⟩

/-- Python `s.startswith('http')`. -/
def startsWithHttp (s : String) : Bool := "http".data.isPrefixOf s.data

/-- Python `s.startswith('/')`. -/
def startsWithSlash (s : String) : Bool := s.data.head? = some '/'

/-- Python `s.upper()` (ASCII, which is all the scripts use). -/
def pyUpper (s : String) : String := ⟨s.data.map Char.toUpper⟩

/-- One left-to-right non-overlapping replacement pass over a character
list: every occurrence of `p` is replaced by `r` (Python `str.replace`
semantics for a non-empty pattern). -/
def replaceList (p r : List Char) : List Char → List Char
  | [] => []
  | c :: cs =>
    if p.isPrefixOf (c :: cs) then r ++ replaceList p r (cs.drop (p.length - 1))
    else c :: replaceList p r cs
termination_by l => l.length
decreasing_by
  · simp only [List.length_drop, List.length_cons]; omega
  · simp only [List.length_cons]; omega

/-- Python `s.replace(p, r)` for a non-empty pattern `p`. -/
def pyReplace (s p r : String) : String := ⟨replaceList p.data r.data s.data⟩

/-- The raw result the network oracle supplies for one HTTP request: either
an HTTP response (status code and JSON body as an association list), or a
`requests.exceptions.RequestException` of the named kind. -/
inductive RawResult where
  | reply (status : Nat) (body : List (String × String))
  | exc (kind : String)
deriving DecidableEq

/-- An HTTP response as seen by the scripts. -/
structure Reply where
  status : Nat
  body : List (String × String)
deriving DecidableEq

/-- `response.json().get(key)` on a reply body. -/
def bodyGet (body : List (String × String)) (key : String) : Option String :=
  body.lookup key

/-- The body field `status` of a raw result (none for an exception). -/
def bodyStatus : RawResult → Option String
  | .reply _ body => bodyGet body "status"
  | .exc _ => none

/-- One recorded Prometheus metric increment / observation. -/
structure MetricEvent where
  name : String
  labels : List (String × String)
deriving DecidableEq

/-- One observable side effect of a script, in program order. -/
inductive Ev where
  | gaugeInc
  | gaugeDec
  | httpCall (method url : String)
  | metric (m : MetricEvent)
  | sleepFor (seconds : Nat)
deriving DecidableEq

/-- The HTTP requests (method, url) recorded in an event list, in order. -/
def callsOf (t : List Ev) : List (String × String) :=
  t.filterMap fun e => match e with
    | .httpCall m u => some (m, u)
    | _ => none

/-- The `time.sleep` durations recorded in an event list, in order. -/
def sleepsOf (t : List Ev) : List Nat :=
  t.filterMap fun e => match e with
    | .sleepFor n => some n
    | _ => none

/-- How many times the exact metric event `mv` occurs in an event list. -/
def metricCount (mv : MetricEvent) (t : List Ev) : Nat :=
  (t.filter fun e => decide (e = Ev.metric mv)).length

/-- Net effect of an event list on the in-flight request gauge, starting
from gauge value `g`. -/
def gaugeFold (g : Int) (t : List Ev) : Int :=
  t.foldl (fun acc e => match e with
    | Ev.gaugeInc => acc + 1
    | Ev.gaugeDec => acc - 1
    | _ => acc) g

@[simp] theorem callsOf_nil : callsOf [] = [] := rfl

@[simp] theorem callsOf_append (t₁ t₂ : List Ev) :
    callsOf (t₁ ++ t₂) = callsOf t₁ ++ callsOf t₂ := by
  simp [callsOf]

@[simp] theorem sleepsOf_nil : sleepsOf [] = [] := rfl

@[simp] theorem sleepsOf_append (t₁ t₂ : List Ev) :
    sleepsOf (t₁ ++ t₂) = sleepsOf t₁ ++ sleepsOf t₂ := by
  simp [sleepsOf]

@[simp] theorem callsOf_cons_metric (m : MetricEvent) (t : List Ev) :
    callsOf (Ev.metric m :: t) = callsOf t := rfl

@[simp] theorem callsOf_cons_sleepFor (n : Nat) (t : List Ev) :
    callsOf (Ev.sleepFor n :: t) = callsOf t := rfl

@[simp] theorem callsOf_cons_httpCall (m u : String) (t : List Ev) :
    callsOf (Ev.httpCall m u :: t) = (m, u) :: callsOf t := rfl

@[simp] theorem sleepsOf_cons_metric (m : MetricEvent) (t : List Ev) :
    sleepsOf (Ev.metric m :: t) = sleepsOf t := rfl

@[simp] theorem sleepsOf_cons_sleepFor (n : Nat) (t : List Ev) :
    sleepsOf (Ev.sleepFor n :: t) = n :: sleepsOf t := rfl

@[simp] theorem sleepsOf_cons_httpCall (m u : String) (t : List Ev) :
    sleepsOf (Ev.httpCall m u :: t) = sleepsOf t := rfl

@[simp] theorem metricCount_nil (mv : MetricEvent) : metricCount mv [] = 0 := rfl

@[simp] theorem metricCount_append (mv : MetricEvent) (t₁ t₂ : List Ev) :
    metricCount mv (t₁ ++ t₂) = metricCount mv t₁ + metricCount mv t₂ := by
  simp [metricCount]

namespace Script1

/-! ### `getapp-test-script.py` -/

/-- Metric event of `test_failures.labels(test_name=…, failure_reason=…).inc()`. -/
def testFailEv (testName failureReason : String) : MetricEvent :=
  ⟨"getapp_test_failures_total", [("test_name", testName), ("failure_reason", failureReason)]⟩

/-- Metric event of `download_failures.labels(file_type=…).inc()`. -/
def downloadFailEv (fileType : String) : MetricEvent :=
  ⟨"getapp_download_failures_total", [("file_type", fileType)]⟩

/-- Metric event of `import_status_failures.labels(status=…).inc()`. -/
def importStatusFailEv (status : String) : MetricEvent :=
  ⟨"getapp_import_status_failures", [("status", status)]⟩

/-- Metric event of `request_counter.labels(endpoint=…, method=…).inc()`. -/
def requestsTotalEv (endpoint method : String) : MetricEvent :=
  ⟨"getapp_requests_total", [("endpoint", endpoint), ("method", method)]⟩

/-- Metric event of `request_latency.labels(endpoint=…).observe(…)`. -/
def durationEv (endpoint : String) : MetricEvent :=
  ⟨"getapp_request_duration_seconds", [("endpoint", endpoint)]⟩

/-- Metric event of `request_size.observe(…)`. -/
def sizeEv : MetricEvent := ⟨"getapp_request_size_bytes", []⟩

/-- Metric event of `failed_requests.labels(endpoint=…, status_code=…, error_type=…).inc()`. -/
def failedReqEv (endpoint statusCode errorType : String) : MetricEvent :=
  ⟨"getapp_failed_requests_total",
    [("endpoint", endpoint), ("status_code", statusCode), ("error_type", errorType)]⟩

/-- The session fields of `APITester.__init__` in `getapp-test-script.py`. -/
structure Tester where
  base_url : String
  auth_token : Option String
  device_id : String
  bbox_array : List String
  current_import_request_id : Option String
deriving DecidableEq

/-- A freshly constructed `APITester` (`auth_token = None`,
`current_import_request_id = None`; the device id and bbox strings are
randomly generated, so they are parameters here). -/
def initTester (base deviceId : String) (bboxes : List String) : Tester :=
  { base_url := base
    auth_token := none
    device_id := deviceId
    bbox_array := bboxes
    current_import_request_id := none }

/-- Session state plus the index of the next oracle answer to consume. -/
structure St where
  tester : Tester
  callIdx : Nat
deriving DecidableEq

/-- URL construction in `_make_request`: a full URL (anything starting with
`'http'`) is used verbatim, otherwise leading slashes are stripped from the
endpoint and it is appended to the base URL after a single `'/'`. -/
def requestUrl (base endpoint : String) : String :=
  if startsWithHttp endpoint then endpoint
  else base ++ "/" ++ lstripSlash endpoint

/-- The value/success part of `_make_request`'s behaviour on one raw
result: statuses `≥ 400` and transport exceptions return `False`, every
other response returns `True` (`return response, True`). -/
def gwRes : RawResult → Option Reply × Bool
  | .reply st body => if st ≥ 400 then (some ⟨st, body⟩, false) else (some ⟨st, body⟩, true)
  | .exc _ => (none, false)

/-- The event trail of one `_make_request` call: `active_requests.inc()`,
the HTTP request itself, the metric updates of the success / HTTP-error /
exception paths, and the `finally:` `active_requests.dec()`. -/
def gwEvs (method endpoint url : String) (hasJson : Bool) : RawResult → List Ev
  | .reply st _ =>
      [Ev.gaugeInc, Ev.httpCall method url] ++
      (if pyUpper method = "GET" then [] else if hasJson then [Ev.metric sizeEv] else []) ++
      [Ev.metric (requestsTotalEv endpoint method), Ev.metric (durationEv endpoint)] ++
      (if st ≥ 400 then
        [Ev.metric (failedReqEv endpoint (toString st)
          (if st < 500 then "client_error" else "server_error"))]
       else []) ++
      [Ev.gaugeDec]
  | .exc k => [Ev.gaugeInc, Ev.httpCall method url, Ev.metric (failedReqEv endpoint "0" k), Ev.gaugeDec]

/-- `_make_request` of `getapp-test-script.py`: builds the URL, issues the
request (consuming one oracle answer), classifies the outcome and records
the metric events; returns `(response, success)`. -/
def make_request (env : Nat → RawResult) (method endpoint : String) (hasJson : Bool) (s : St) :
    (Option Reply × Bool) × St × List Ev :=
  (gwRes (env s.callIdx),
   { s with callIdx := s.callIdx + 1 },
   gwEvs method endpoint (requestUrl s.tester.base_url endpoint) hasJson (env s.callIdx))

/-- `login`: missing credentials raise a `ValueError` before any request;
otherwise one POST to `/api/login`, extracting `accessToken` on success. -/
def login (env : Nat → RawResult) (username password : Option String) (s : St) :
    Except String Bool × St × List Ev :=
  if !truthyOpt username || !truthyOpt password then
    (.error "Missing required environment variables LOGIN_USERNAME or LOGIN_PASSWORD", s, [])
  else
    let ((resp, success), s, t) := make_request env "POST" "/api/login" true s
    match resp, success with
    | some rep, true =>
        (.ok true, { s with tester := { s.tester with auth_token := bodyGet rep.body "accessToken" } }, t)
    | _, _ => (.ok false, s, t ++ [Ev.metric (testFailEv "login" "auth_failed")])

/-- `discovery`: one POST of a fixed payload; pass/fail gate. -/
def discovery (env : Nat → RawResult) (s : St) : Bool × St × List Ev :=
  let ((_, success), s, t) := make_request env "POST" "/api/device/discover" true s
  if !success then (false, s, t ++ [Ev.metric (testFailEv "discovery" "api_error")])
  else (true, s, t)

/-- `update_download_status`: one POST; its failure is metric-recorded with
a reason that names the status label. -/
def update_download_status (env : Nat → RawResult) (catalog_id : Option String)
    (status : String) (s : St) : Bool × St × List Ev :=
  let ((_, success), s, t) := make_request env "POST" "/api/delivery/updateDownloadStatus" true s
  if !success then
    (false, s, t ++ [Ev.metric (testFailEv "update_download_status" ("status_update_failed_" ++ status))])
  else (true, s, t)

/-- `import_map`: POST to `/api/map/import/create`; on success stores
`importRequestId` into the session and immediately calls
`update_download_status` with it. -/
def import_map (env : Nat → RawResult) (s : St) : Bool × St × List Ev :=
  let ((resp, success), s, t) := make_request env "POST" "/api/map/import/create" true s
  match resp, success with
  | some rep, true =>
      let rid := bodyGet rep.body "importRequestId"
      let s := { s with tester := { s.tester with current_import_request_id := rid } }
      let (ok, s, t2) := update_download_status env rid "Start" s
      (ok, s, t ++ t2)
  | _, _ => (false, s, t ++ [Ev.metric (testFailEv "import_map" "create_failed")])

/-- `check_import_status`: guards on a truthy import id, issues one GET,
returns the body's `status` field (which may be Python `None`, modelled as
`none`); any non-terminal status is recorded as an anomaly metric. -/
def check_import_status (env : Nat → RawResult) (s : St) : Option String × St × List Ev :=
  if !truthyOpt s.tester.current_import_request_id then
    (some "Error", s, [Ev.metric (testFailEv "import_status" "no_request_id")])
  else
    let ((resp, success), s, t) :=
      make_request env "GET"
        ("/api/map/import/status/" ++ pyStr s.tester.current_import_request_id) false s
    match resp, success with
    | some rep, true =>
        let status := bodyGet rep.body "status"
        let t := t ++
          (if status ≠ some "Done" ∧ status ≠ some "Error" then
            [Ev.metric (importStatusFailEv (pyStr status))]
           else [])
        (status, s, t)
    | _, _ => (some "Error", s, t ++ [Ev.metric (importStatusFailEv "api_error")])

/-- `prepare_delivery`: POST to trigger preparation, GET to fetch the
prepared URL; a truthy relative URL in the reply is resolved against the
base URL (both `/path` and `path` forms). -/
def prepare_delivery (env : Nat → RawResult) (s : St) : Option String × St × List Ev :=
  let ((_, success), s, t) := make_request env "POST" "/api/delivery/prepareDelivery" true s
  if !success then
    (none, s, t ++ [Ev.metric (testFailEv "prepare_delivery" "preparation_failed")])
  else
    let ((resp, success2), s, t2) :=
      make_request env "GET"
        ("/api/delivery/preparedDelivery/" ++ pyStr s.tester.current_import_request_id) false s
    let t := t ++ t2
    match resp, success2 with
    | some rep, true =>
        let url := bodyGet rep.body "url"
        let url : Option String :=
          match url with
          | none => none
          | some u =>
              if !u.isEmpty && !startsWithHttp u then
                if startsWithSlash u then some (s.tester.base_url ++ u)
                else some (s.tester.base_url ++ "/" ++ u)
              else some u
        (url, s, t)
    | _, _ => (none, s, t ++ [Ev.metric (testFailEv "prepare_delivery" "get_url_failed")])

/-- `download_files`: guards on a truthy URL, then fetches the primary
asset and — regardless of the first outcome — the sibling asset whose URL
is the primary URL with every `.gpkg` replaced by `.json`; each failure is
metric-labelled by file type, and the step succeeds only if both
downloads succeed. -/
def download_files (env : Nat → RawResult) (url : Option String) (s : St) :
    Bool × St × List Ev :=
  if !truthyOpt url then
    (false, s, [Ev.metric (testFailEv "download_files" "no_url")])
  else
    let u := pyStr url
    let ((_, success_gpkg), s, t) := make_request env "GET" u false s
    let t := t ++ (if !success_gpkg then [Ev.metric (downloadFailEv "gpkg")] else [])
    let json_url := pyReplace u ".gpkg" ".json"
    let ((_, success_json), s, t2) := make_request env "GET" json_url false s
    let t := t ++ t2 ++ (if !success_json then [Ev.metric (downloadFailEv "json")] else [])
    (success_gpkg && success_json, s, t)

/-- `update_inventory`: one POST; pass/fail gate. -/
def update_inventory (env : Nat → RawResult) (s : St) : Bool × St × List Ev :=
  let ((_, success), s, t) := make_request env "POST" "/api/map/inventory/updates" true s
  if !success then (false, s, t ++ [Ev.metric (testFailEv "update_inventory" "update_failed")])
  else (true, s, t)

/-- The fixed list of health endpoints of `check_health`. -/
def healthEndpoints : List String :=
  ["/api/delivery/checkHealth", "/api/device/checkHealth",
   "/api/offering/checkHealth", "/api/map/checkHealth"]

/-- The loop body of `check_health` over the remaining endpoints, carrying
`all_healthy`. -/
def checkHealthAux (env : Nat → RawResult) : List String → Bool → St → Bool × St × List Ev
  | [], acc, s => (acc, s, [])
  | e :: es, acc, s =>
      let ((_, success), s, t) := make_request env "GET" e false s
      let (acc, t) :=
        if !success then (false, t ++ [Ev.metric (testFailEv "health_check" e)]) else (acc, t)
      let (b, s, t2) := checkHealthAux env es acc s
      (b, s, t ++ t2)

/-- `check_health`: calls every one of the four fixed endpoints (no
short-circuit) and aggregates to a conjunction. -/
def check_health (env : Nat → RawResult) (s : St) : Bool × St × List Ev :=
  checkHealthAux env healthEndpoints true s

/-- The status-polling loop of `run_full_test`, with `fuel`
= `max_retries - retry_count`.  The first component is `false` exactly
when the loop body hit `status == 'Error'` and returned (aborting the
run); otherwise the loop ended with the returned status.  Each non-aborting
iteration ends with `time.sleep(2)`. -/
def pollStatus (env : Nat → RawResult) : Nat → Option String → St →
    Bool × Option String × St × List Ev
  | 0, status, s => (true, status, s, [])
  | fuel + 1, status, s =>
      if status = some "Done" ∨ status = some "Error" then (true, status, s, [])
      else
        let (st, s, t) := check_import_status env s
        if st = some "Error" then (false, st, s, t)
        else
          let (b, st2, s2, t2) := pollStatus env fuel st s
          (b, st2, s2, t ++ [Ev.sleepFor 2] ++ t2)

/-- The five best-effort `update_download_status` calls after a successful
download, each followed by `time.sleep(2)`; individual results are
discarded. -/
def repeatUpdates (env : Nat → RawResult) : Nat → St → St × List Ev
  | 0, s => (s, [])
  | n + 1, s =>
      let (_, s, t) := update_download_status env s.tester.current_import_request_id "Start" s
      let (s2, t2) := repeatUpdates env n s
      (s2, t ++ [Ev.sleepFor 2] ++ t2)

/-- Terminal state of one `run_full_test` invocation. -/
inductive RunOutcome where
  | completed
  | aborted (step : String)
  | exnRaised (msg : String)
deriving DecidableEq

/-- `run_full_test`: the full linear pipeline of `getapp-test-script.py`. -/
def run_full_test (env : Nat → RawResult) (username password : Option String) (s : St) :
    RunOutcome × St × List Ev :=
  match login env username password s with
  | (.error msg, s, t) => (.exnRaised msg, s, t)
  | (.ok false, s, t) => (.aborted "login", s, t)
  | (.ok true, s, t) =>
    let (ok, s, t2) := discovery env s
    let t := t ++ t2
    if !ok then (.aborted "discovery", s, t)
    else
      let (ok, s, t2) := import_map env s
      let t := t ++ t2
      if !ok then (.aborted "import_map", s, t)
      else
        match pollStatus env 30 (some "Processing") s with
        | (false, _, s, t2) => (.aborted "import_status", s, t ++ t2)
        | (true, _, s, t2) =>
          let t := t ++ t2
          let (_, s, t2) := update_download_status env s.tester.current_import_request_id "Start" s
          let t := t ++ t2
          let (download_url, s, t2) := prepare_delivery env s
          let t := t ++ t2
          if !truthyOpt download_url then (.aborted "prepare_delivery", s, t)
          else
            let (ok, s, t2) := download_files env download_url s
            let t := t ++ t2
            if !ok then (.aborted "download_files", s, t)
            else
              let (s, t2) := repeatUpdates env 5 s
              let t := t ++ t2
              let (ok, s, t2) := update_inventory env s
              let t := t ++ t2
              if !ok then (.aborted "update_inventory", s, t)
              else
                let (ok, s, t2) := check_health env s
                let t := t ++ t2
                if !ok then (.aborted "health_check", s, t)
                else (.completed, s, t)

/-- The scheduler loop of `main`: every iteration constructs a fresh
`APITester` (fresh device id and bbox list, both randomly generated, hence
indexed parameters here) and runs the full test with that run's network
oracle.  Only the metric trace is process-global. -/
def script1Main (base : String) (ids : Nat → String) (bboxes : Nat → List String)
    (envs : Nat → Nat → RawResult) (username password : Option String) :
    Nat → List RunOutcome × List Ev
  | 0 => ([], [])
  | n + 1 =>
      let (os, t) := script1Main base ids bboxes envs username password n
      let (o, _, t2) := run_full_test (envs n) username password ⟨initTester base (ids n) (bboxes n), 0⟩
      (os ++ [o], t ++ t2)

end Script1

namespace Script2

/-! ### `getapp-test-script-2.py` -/

/-- Metric event of `request_counter.labels(endpoint=…, status=…).inc()`
(metric `getapp_requests_total_python`). -/
def pyCounterEv (endpoint status : String) : MetricEvent :=
  ⟨"getapp_requests_total_python", [("endpoint", endpoint), ("status", status)]⟩

/-- The session fields of `APITester.__init__` in `getapp-test-script-2.py`. -/
structure Tester where
  base_url : String
  auth_token : Option String
  device_id : String
  current_import_request_id : Option String
  bbox_array : List String
deriving DecidableEq

/-- A freshly constructed `APITester` of the second script. -/
def initTester (base deviceId : String) (bboxes : List String) : Tester :=
  { base_url := base
    auth_token := none
    device_id := deviceId
    current_import_request_id := none
    bbox_array := bboxes }

/-- Session state plus the index of the next oracle answer to consume. -/
structure St where
  tester : Tester
  callIdx : Nat
deriving DecidableEq

/-- URL construction in the second script's `_make_request`: the endpoint
is always joined to the base URL (there is no full-URL branch). -/
def requestUrl (base endpoint : String) : String :=
  base ++ "/" ++ lstripSlash endpoint

/-- The value part of the second `_make_request` on one raw result:
`(response, 1)` for a 2xx status, `(None, 2)` otherwise (HTTP error or
exception). -/
def gwRes : RawResult → Option Reply × Nat
  | .reply st body => if 200 ≤ st ∧ st < 300 then (some ⟨st, body⟩, 1) else (none, 2)
  | .exc _ => (none, 2)

/-- The event trail of one second-script `_make_request` call: the HTTP
request and the single counter increment labelled
`success` / `failure` / `exception`. -/
def gwEvs (endpoint url method : String) : RawResult → List Ev
  | .reply st _ =>
      [Ev.httpCall method url,
       Ev.metric (pyCounterEv endpoint (if 200 ≤ st ∧ st < 300 then "success" else "failure"))]
  | .exc _ => [Ev.httpCall method url, Ev.metric (pyCounterEv endpoint "exception")]

/-- `_make_request` of `getapp-test-script-2.py`: returns the response and
`1` for success, `2` for failure. -/
def make_request (env : Nat → RawResult) (method endpoint : String) (s : St) :
    (Option Reply × Nat) × St × List Ev :=
  (gwRes (env s.callIdx),
   { s with callIdx := s.callIdx + 1 },
   gwEvs endpoint (requestUrl s.tester.base_url endpoint) method (env s.callIdx))

/-- `login`: missing credentials log an error and return `2` without any
request; otherwise one POST to `/api/login`, extracting `accessToken` on
success. -/
def login (env : Nat → RawResult) (username password : Option String) (s : St) :
    Nat × St × List Ev :=
  if !truthyOpt username || !truthyOpt password then (2, s, [])
  else
    let ((resp, status), s, t) := make_request env "POST" "/api/login" s
    match resp, status with
    | some rep, 1 =>
        (1, { s with tester := { s.tester with auth_token := bodyGet rep.body "accessToken" } }, t)
    | _, _ => (2, s, t)

/-- `discovery`: one POST of a fixed payload; returns the request status. -/
def discovery (env : Nat → RawResult) (s : St) : Nat × St × List Ev :=
  let ((_, status), s, t) := make_request env "POST" "/api/device/discover" s
  (status, s, t)

/-- `import_map`: POST to `/api/map/import/create`; on success stores
`importRequestId` into the session. -/
def import_map (env : Nat → RawResult) (s : St) : Nat × St × List Ev :=
  let ((resp, status), s, t) := make_request env "POST" "/api/map/import/create" s
  match resp, status with
  | some rep, 1 =>
      (1, { s with tester := { s.tester with current_import_request_id := bodyGet rep.body "importRequestId" } }, t)
  | _, _ => (2, s, t)

/-- `check_import_status`: fails fast (no request) when the import id is
not truthy; otherwise one GET, succeeding only on body status `Done`. -/
def check_import_status (env : Nat → RawResult) (s : St) : Nat × St × List Ev :=
  if !truthyOpt s.tester.current_import_request_id then (2, s, [])
  else
    let ((resp, status), s, t) :=
      make_request env "GET"
        ("/api/map/import/status/" ++ pyStr s.tester.current_import_request_id) s
    match resp, status with
    | some rep, 1 => (if bodyGet rep.body "status" = some "Done" then 1 else 2, s, t)
    | _, _ => (2, s, t)

/-- `update_download_status`: fails fast (no request) when the import id is
not truthy; otherwise one POST. -/
def update_download_status (env : Nat → RawResult) (s : St) : Nat × St × List Ev :=
  if !truthyOpt s.tester.current_import_request_id then (2, s, [])
  else
    let ((_, status), s, t) := make_request env "POST" "/api/delivery/updateDownloadStatus" s
    (status, s, t)

/-- `prepare_delivery`: fails fast (no request) when the import id is not
truthy; otherwise one POST, succeeding when the call succeeds. -/
def prepare_delivery (env : Nat → RawResult) (s : St) : Nat × St × List Ev :=
  if !truthyOpt s.tester.current_import_request_id then (2, s, [])
  else
    let ((resp, status), s, t) := make_request env "POST" "/api/delivery/prepareDelivery" s
    match resp, status with
    | some _, 1 => (1, s, t)
    | _, _ => (2, s, t)

/-- `run_tests`: runs all six tests in insertion order, collecting each
result; no failure stops the sequence. -/
def run_tests (env : Nat → RawResult) (username password : Option String) (s : St) :
    List (String × Nat) × St × List Ev :=
  let (r1, s, t1) := login env username password s
  let (r2, s, t2) := discovery env s
  let (r3, s, t3) := import_map env s
  let (r4, s, t4) := check_import_status env s
  let (r5, s, t5) := prepare_delivery env s
  let (r6, s, t6) := update_download_status env s
  ([("login", r1), ("discovery", r2), ("import_map", r3),
    ("check_import_status", r4), ("prepare_delivery", r5), ("update_download_status", r6)],
   s, t1 ++ t2 ++ t3 ++ t4 ++ t5 ++ t6)

/-- The main loop of the second script: the `APITester` is constructed
once, before the loop, and the same session is reused by every
`run_tests` iteration (only the oracle-index is reset, since each run has
its own network oracle `envs k`). -/
def script2Loop (envs : Nat → Nat → RawResult) (username password : Option String) :
    Nat → St → List (List (String × Nat)) × St × List Ev
  | 0, s => ([], s, [])
  | n + 1, s =>
      let (rs, s, t) := run_tests (envs 0) username password { s with callIdx := 0 }
      let (rss, s2, t2) := script2Loop (fun k => envs (k + 1)) username password n s
      (rs :: rss, s2, t ++ t2)

/-- The session state the k-th `run_tests` iteration of the second
script's main loop receives (before its per-run oracle-index reset):
iteration 0 receives the single freshly constructed tester, and iteration
k+1 receives exactly the state iteration k left behind. -/
def script2StateAt (envs : Nat → Nat → RawResult) (username password : Option String)
    (s0 : St) : Nat → St
  | 0 => s0
  | k + 1 =>
      (run_tests (envs k) username password
        { script2StateAt envs username password s0 k with callIdx := 0 }).2.1

end Script2

/-! ### Derived classification and polling notions -/

/-- The JSON body of a raw result (empty for an exception). -/
def replyBody : RawResult → List (String × String)
  | .reply _ b => b
  | .exc _ => []

/-- The spec's `RequestOutcome` taxonomy:
Success / ClientError / ServerError / TransportError. -/
inductive Outcome where
  | success
  | clientError
  | serverError
  | transportError (kind : String)
  | otherOut
deriving DecidableEq

namespace Script1

/-- The success flag `_make_request` produces for a raw result. -/
def isOkReply (r : RawResult) : Bool := (gwRes r).2

/-- The `error_type` label of the first `failed_requests` metric event in
an event list. -/
def errorTypeOf (t : List Ev) : Option String :=
  (t.filterMap fun e => match e with
    | .metric m =>
        if m.name = "getapp_failed_requests_total" then m.labels.lookup "error_type" else none
    | _ => none).head?

/-- A sample session used to read off `_make_request`'s outcome
classification. -/
def sampleSt : St := ⟨initTester "https://base" "device" [], 0⟩

/-- The outcome classification `_make_request` gives one raw result, read
off from its returned `(response, success)` pair and, for a transport
failure (where the code returns `None` instead of a response), the
`error_type` label of the `failed_requests` metric it emits, which carries
the exception's type name. -/
def classifyCall (r : RawResult) : Outcome :=
  let ((resp, success), _, t) := make_request (fun _ => r) "GET" "/endpoint" false sampleSt
  if success then .success
  else match resp with
    | some rep => if rep.status < 500 then .clientError else .serverError
    | none =>
        match errorTypeOf t with
        | some k => .transportError k
        | none => .otherOut

/-- A status-poll oracle answer that keeps the loop going: the request
succeeds and the body's status is neither `Done` nor `Error`. -/
def okNonTerminal (r : RawResult) : Prop :=
  isOkReply r = true ∧ bodyStatus r ≠ some "Done" ∧ bodyStatus r ≠ some "Error"

instance (r : RawResult) : Decidable (okNonTerminal r) := by
  unfold okNonTerminal; infer_instance

/-- A status-poll oracle answer that ends the loop successfully. -/
def okDone (r : RawResult) : Prop :=
  isOkReply r = true ∧ bodyStatus r = some "Done"

instance (r : RawResult) : Decidable (okDone r) := by
  unfold okDone; infer_instance

/-! ### Basic facts about the embedded gateways -/

theorem isOkReply_reply (st : Nat) (b : List (String × String)) :
    isOkReply (.reply st b) = decide (st < 400) := by
  simp only [isOkReply, gwRes]
  split <;> rename_i h <;> simp <;> omega

theorem isOkReply_exc (k : String) : isOkReply (.exc k) = false := rfl

theorem gwRes_eq_of_ok {r : RawResult} (h : isOkReply r = true) :
    ∃ st b, r = .reply st b ∧ gwRes r = (some ⟨st, b⟩, true) ∧ replyBody r = b := by
  rcases r with ⟨st, b⟩ | k
  · refine ⟨st, b, rfl, ?_, rfl⟩
    simp only [isOkReply, gwRes] at h ⊢
    split at h <;> simp_all
  · simp [isOkReply, gwRes] at h

theorem gwRes_eq_of_fail {r : RawResult} (h : isOkReply r = false) :
    (gwRes r).2 = false := h

@[simp] theorem callsOf_gwEvs (m e url : String) (hj : Bool) (r : RawResult) :
    callsOf (gwEvs m e url hj r) = [(m, url)] := by
  rcases r with ⟨st, b⟩ | k <;> simp only [gwEvs] <;>
    (try split) <;> (try split) <;> (try split) <;> simp [callsOf]

@[simp] theorem sleepsOf_gwEvs (m e url : String) (hj : Bool) (r : RawResult) :
    sleepsOf (gwEvs m e url hj r) = [] := by
  rcases r with ⟨st, b⟩ | k <;> simp only [gwEvs] <;>
    (try split) <;> (try split) <;> (try split) <;> simp [sleepsOf]

/-- A metric-count helper: an event list none of whose metric events equal
`mv` contributes nothing. -/
theorem metricCount_eq_zero {mv : MetricEvent} {t : List Ev}
    (h : ∀ x, Ev.metric x ∈ t → x ≠ mv) : metricCount mv t = 0 := by
  simp only [metricCount, List.length_eq_zero, List.filter_eq_nil_iff]
  intro a ha
  simp only [decide_eq_true_eq]
  intro he
  subst he
  exact h _ ha rfl

/-- The gateway's own metric events (request counter, latency, size,
failed-request counter) never coincide with a step-level metric event,
whose name differs. -/
theorem metricCount_gwEvs (mv : MetricEvent) (m e url : String) (hj : Bool) (r : RawResult)
    (h1 : mv.name ≠ "getapp_requests_total")
    (h2 : mv.name ≠ "getapp_request_duration_seconds")
    (h3 : mv.name ≠ "getapp_request_size_bytes")
    (h4 : mv.name ≠ "getapp_failed_requests_total") :
    metricCount mv (gwEvs m e url hj r) = 0 := by
  apply metricCount_eq_zero
  intro x hx he
  subst he
  rcases r with ⟨st, b⟩ | k <;> simp only [gwEvs] at hx <;>
    (try split at hx) <;> (try split at hx) <;> (try split at hx) <;>
    simp [requestsTotalEv, durationEv, sizeEv, failedReqEv, List.mem_append] at hx <;>
    rcases hx with h | h | h | h | h <;> (try subst h) <;> simp_all

/-- Shape of one gateway call's event trail: a gauge increment, the HTTP
request, some metric events, and a final gauge decrement. -/
theorem gwEvs_shape (m e url : String) (hj : Bool) (r : RawResult) :
    ∃ ms : List MetricEvent,
      gwEvs m e url hj r =
        Ev.gaugeInc :: Ev.httpCall m url :: (ms.map Ev.metric ++ [Ev.gaugeDec]) := by
  rcases r with ⟨st, b⟩ | k
  · simp only [gwEvs]
    split
    · split
      · exact ⟨[requestsTotalEv e m, durationEv e,
          failedReqEv e (toString st) (if st < 500 then "client_error" else "server_error")], by simp⟩
      · exact ⟨[requestsTotalEv e m, durationEv e], by simp⟩
    · split
      · split
        · exact ⟨[sizeEv, requestsTotalEv e m, durationEv e,
            failedReqEv e (toString st) (if st < 500 then "client_error" else "server_error")], by simp⟩
        · exact ⟨[sizeEv, requestsTotalEv e m, durationEv e], by simp⟩
      · split
        · exact ⟨[requestsTotalEv e m, durationEv e,
            failedReqEv e (toString st) (if st < 500 then "client_error" else "server_error")], by simp⟩
        · exact ⟨[requestsTotalEv e m, durationEv e], by simp⟩
  · exact ⟨[failedReqEv e "0" k], by simp [gwEvs]⟩

end Script1

theorem gaugeFold_append (g : Int) (t₁ t₂ : List Ev) :
    gaugeFold g (t₁ ++ t₂) = gaugeFold (gaugeFold g t₁) t₂ := by
  simp [gaugeFold, List.foldl_append]

theorem gaugeFold_map_metric (g : Int) (ms : List MetricEvent) :
    gaugeFold g (ms.map Ev.metric) = g := by
  induction ms generalizing g with
  | nil => rfl
  | cons m rest ih => simpa [gaugeFold, List.foldl_cons] using ih g

theorem head_lstripSlashList (l : List Char) : (lstripSlashList l).head? ≠ some '/' := by
  induction l with
  | nil => simp [lstripSlashList]
  | cons c cs ih =>
      by_cases h : c = '/'
      · simpa [lstripSlashList, h] using ih
      · simp [lstripSlashList, h]

theorem head_lstripSlash (s : String) : (lstripSlash s).data.head? ≠ some '/' :=
  head_lstripSlashList s.data

theorem getLast_rstripSlash (s : String) : (rstripSlash s).data.getLast? ≠ some '/' := by
  simpa [rstripSlash, List.getLast?_reverse] using head_lstripSlashList s.data.reverse

/-! ### C10 — the in-flight gauge is balanced around every gateway call -/

/-- C10 (confirmed): for every call through `_make_request`, whatever the
raw outcome (success, HTTP error status, or transport exception), the
event trail starts with exactly one gauge increment, immediately followed
by the HTTP request; everything in between until the final single gauge
decrement is metric events only; and the gauge net effect of the call is
zero, so the gauge returns to its prior value. -/
theorem c10_gauge_balanced (env : Nat → RawResult) (m e : String) (hj : Bool) (s : Script1.St) :
    ∃ mid, (Script1.make_request env m e hj s).2.2 =
        Ev.gaugeInc :: Ev.httpCall m (Script1.requestUrl s.tester.base_url e) ::
          (mid ++ [Ev.gaugeDec]) ∧
      (∀ x ∈ mid, ∃ mv, x = Ev.metric mv) ∧
      ∀ g : Int, gaugeFold g ((Script1.make_request env m e hj s).2.2) = g := by
  obtain ⟨ms, hms⟩ :=
    Script1.gwEvs_shape m e (Script1.requestUrl s.tester.base_url e) hj (env s.callIdx)
  refine ⟨ms.map Ev.metric, ?_, ?_, ?_⟩
  · simpa [Script1.make_request] using hms
  · intro x hx
    rcases List.mem_map.mp hx with ⟨mv, _, rfl⟩
    exact ⟨mv, rfl⟩
  · intro g
    have : (Script1.make_request env m e hj s).2.2 =
        Ev.gaugeInc :: Ev.httpCall m (Script1.requestUrl s.tester.base_url e) ::
          (ms.map Ev.metric ++ [Ev.gaugeDec]) := by
      simpa [Script1.make_request] using hms
    rw [this]
    show gaugeFold g _ = g
    rw [show (Ev.gaugeInc :: Ev.httpCall m (Script1.requestUrl s.tester.base_url e) ::
        (ms.map Ev.metric ++ [Ev.gaugeDec])) =
        ([Ev.gaugeInc, Ev.httpCall m (Script1.requestUrl s.tester.base_url e)] ++
          ms.map Ev.metric) ++ [Ev.gaugeDec] by simp]
    rw [gaugeFold_append, gaugeFold_append, gaugeFold_map_metric]
    show gaugeFold (gaugeFold g [Ev.gaugeInc, _]) [Ev.gaugeDec] = g
    simp [gaugeFold]

/-! ### C5 — outcome classification of the gateways -/

/-- C5 (counterexample): the claim's classification "200–299 → Success and
nothing else yields Success" is false for the first script's gateway: a
`300` response is classified `Success` (the code only treats
`status_code >= 400` as failure). -/
theorem c5_counterexample :
    Script1.classifyCall (.reply 300 []) = Outcome.success ∧ ¬ (200 ≤ 300 ∧ 300 ≤ 299) := by
  constructor
  · rfl
  · decide

/-- C5 (amended): in `getapp-test-script.py`, every status below 400
(including 1xx and 3xx) is classified Success, 400–499 ClientError,
everything from 500 up ServerError, and a transport exception is a
TransportError carrying the exception kind.  In `getapp-test-script-2.py`
the classification is coarser: 2xx yields `1` with a `success`-labelled
counter event, every other status yields `2` with a single
undifferentiated `failure` label (no client/server distinction), and an
exception yields `2` with an `exception` label. -/
theorem c5_amended (st : Nat) (b : List (String × String)) (k m e : String) (s2 : Script2.St) :
    (Script1.classifyCall (.reply st b) =
      if st < 400 then Outcome.success
      else if st < 500 then Outcome.clientError else Outcome.serverError) ∧
    Script1.classifyCall (.exc k) = Outcome.transportError k ∧
    ((Script2.make_request (fun _ => .reply st b) m e s2).1.2 =
      if 200 ≤ st ∧ st < 300 then 1 else 2) ∧
    ((Script2.make_request (fun _ => .reply st b) m e s2).2.2 =
      [Ev.httpCall m (Script2.requestUrl s2.tester.base_url e),
       Ev.metric (Script2.pyCounterEv e (if 200 ≤ st ∧ st < 300 then "success" else "failure"))]) ∧
    (Script2.make_request (fun _ => .exc k) m e s2).1.2 = 2 ∧
    (Script2.make_request (fun _ => .exc k) m e s2).2.2 =
      [Ev.httpCall m (Script2.requestUrl s2.tester.base_url e),
       Ev.metric (Script2.pyCounterEv e "exception")] := by
  refine ⟨?_, ?_, ?_, ?_, ?_, ?_⟩
  · by_cases h4 : st < 400
    · simp [Script1.classifyCall, Script1.make_request, Script1.gwRes, h4, Nat.not_le.mpr h4]
    · have h4' : st ≥ 400 := Nat.not_lt.mp h4
      by_cases h5 : st < 500 <;>
        simp [Script1.classifyCall, Script1.make_request, Script1.gwRes, Script1.gwEvs,
          Script1.errorTypeOf, Script1.requestsTotalEv, Script1.durationEv, Script1.failedReqEv,
          h4, h4', h5, List.lookup, pyUpper]
  · rfl
  · simp only [Script2.make_request, Script2.gwRes]
    by_cases h : 200 ≤ st ∧ st < 300 <;> simp [h]
  · simp only [Script2.make_request, Script2.gwEvs]
  · rfl
  · rfl

/-! ### C6 — request-URL construction -/

/-- C6 (counterexample): the second script's gateway has no verbatim
branch at all: an endpoint that begins with a full URL scheme is still
joined onto the base URL instead of being used verbatim. -/
theorem c6_counterexample :
    callsOf (Script2.make_request (fun _ => .reply 200 []) "GET" "http://example.com/a"
        ⟨Script2.initTester "https://h" "d" [], 0⟩).2.2 =
      [("GET", "https://h/http://example.com/a")] ∧
    "https://h/http://example.com/a" ≠ "http://example.com/a" := by
  constructor
  · rfl
  · decide

/-- C6 (amended): in `getapp-test-script.py` an endpoint beginning with
the four characters `http` (a superset of full URL schemes — e.g.
`httpfoo` also qualifies) is used verbatim; any other endpoint has its
leading slashes stripped and is joined to the configured base URL (itself
stripped of trailing slashes at configuration time) with exactly one
separating slash: the joined base never ends in `/` and the stripped
endpoint never starts with `/`.  In `getapp-test-script-2.py` every
endpoint is joined this way; there is no verbatim branch. -/
theorem c6_amended :
    (∀ base e, startsWithHttp e = true → Script1.requestUrl base e = e) ∧
    (∀ raw e, startsWithHttp e = false →
      Script1.requestUrl (rstripSlash raw) e = rstripSlash raw ++ "/" ++ lstripSlash e) ∧
    (∀ raw e, Script2.requestUrl (rstripSlash raw) e = rstripSlash raw ++ "/" ++ lstripSlash e) ∧
    (∀ raw, (rstripSlash raw).data.getLast? ≠ some '/') ∧
    (∀ e, (lstripSlash e).data.head? ≠ some '/') ∧
    (∀ base, Script1.requestUrl base "httpfoo" = "httpfoo") ∧
    startsWithHttp "httpfoo" = true ∧
    ¬ ("http://".data.isPrefixOf "httpfoo".data ∨ "https://".data.isPrefixOf "httpfoo".data) := by
  refine ⟨?_, ?_, ?_, getLast_rstripSlash, head_lstripSlash, ?_, by decide, by decide⟩
  · intro base e h
    simp [Script1.requestUrl, h]
  · intro raw e h
    simp [Script1.requestUrl, h]
  · intro raw e
    rfl
  · intro base
    have h : startsWithHttp "httpfoo" = true := by decide
    simp [Script1.requestUrl, h]

@[simp] theorem callsOf_ite_metric (c : Prop) [Decidable c] (m : MetricEvent) :
    callsOf (if c then [Ev.metric m] else []) = [] := by
  split <;> simp [callsOf]

@[simp] theorem sleepsOf_ite_metric (c : Prop) [Decidable c] (m : MetricEvent) :
    sleepsOf (if c then [Ev.metric m] else []) = [] := by
  split <;> simp [sleepsOf]

@[simp] theorem metricCount_metric_self (mv : MetricEvent) :
    metricCount mv [Ev.metric mv] = 1 := by
  simp [metricCount]

theorem metricCount_metric_ne {mv mv' : MetricEvent} (h : mv' ≠ mv) :
    metricCount mv [Ev.metric mv'] = 0 := by
  simp [metricCount, h]

@[simp] theorem metricCount_cons (mv : MetricEvent) (x : Ev) (t : List Ev) :
    metricCount mv (x :: t) = (if x = Ev.metric mv then 1 else 0) + metricCount mv t := by
  simp only [metricCount, List.filter_cons]
  split <;> rename_i h <;> simp_all [Nat.add_comm]

theorem metricCount_ite_ne {c : Prop} [Decidable c] {mv mv' : MetricEvent} (h : mv' ≠ mv) :
    metricCount mv (if c then [Ev.metric mv'] else []) = 0 := by
  split <;> simp [metricCount_metric_ne h]

/-- C6 witness: a full URL is used verbatim by script 1, and a joined URL
has exactly one separating slash even when the raw base has trailing
slashes and the endpoint leading ones. -/
theorem c6_amended_witness :
    startsWithHttp "http://x/y" = true ∧
    Script1.requestUrl "https://h" "http://x/y" = "http://x/y" ∧
    startsWithHttp "/api/login" = false ∧
    Script1.requestUrl (rstripSlash "https://h///") "/api/login" =
      rstripSlash "https://h///" ++ "/" ++ lstripSlash "/api/login" :=
  ⟨by decide, c6_amended.1 "https://h" "http://x/y" (by decide), by decide,
   c6_amended.2.1 "https://h///" "/api/login" (by decide)⟩

/-! ### C7 — both downloads always attempted, success only if both succeed -/

/-- C7 (confirmed): for a truthy download URL, `download_files` always
issues exactly two GET requests — the primary URL and the sibling URL with
`.gpkg` replaced by `.json` — even when the first fetch fails; the step
succeeds iff both fetches succeed; and each individual failure is recorded
as its own `download_failures` metric event labelled by file type. -/
theorem c7_download_both_attempted (env : Nat → RawResult) (s : Script1.St) (u : String)
    (hu : u ≠ "") :
    ∃ t, Script1.download_files env (some u) s =
        (Script1.isOkReply (env s.callIdx) && Script1.isOkReply (env (s.callIdx + 1)),
         { s with callIdx := s.callIdx + 2 }, t) ∧
      callsOf t = [("GET", Script1.requestUrl s.tester.base_url u),
        ("GET", Script1.requestUrl s.tester.base_url (pyReplace u ".gpkg" ".json"))] ∧
      metricCount (Script1.downloadFailEv "gpkg") t =
        (if Script1.isOkReply (env s.callIdx) then 0 else 1) ∧
      metricCount (Script1.downloadFailEv "json") t =
        (if Script1.isOkReply (env (s.callIdx + 1)) then 0 else 1) := by
  have hne : truthyOpt (some u) = true := by
    have : u.isEmpty = false := by
      rw [Bool.eq_false_iff]
      intro h
      exact hu ((String.isEmpty_iff u).mp h)
    simp [truthyOpt, this]
  have hgj : Script1.downloadFailEv "gpkg" ≠ Script1.downloadFailEv "json" := by decide
  have hjg : Script1.downloadFailEv "json" ≠ Script1.downloadFailEv "gpkg" := by decide
  refine ⟨(Script1.download_files env (some u) s).2.2, ?_, ?_, ?_, ?_⟩
  · have hA : (Script1.download_files env (some u) s).1 =
        (Script1.isOkReply (env s.callIdx) && Script1.isOkReply (env (s.callIdx + 1))) := by
      simp [Script1.download_files, hne, Script1.make_request, Script1.isOkReply, pyStr]
    have hB : (Script1.download_files env (some u) s).2.1 =
        { s with callIdx := s.callIdx + 2 } := by
      simp [Script1.download_files, hne, Script1.make_request, pyStr]
    exact Prod.ext hA (Prod.ext hB rfl)
  · simp [Script1.download_files, hne, Script1.make_request, pyStr]
  · have hg0 : ∀ (m e url : String) (hj : Bool) (r : RawResult),
        metricCount (Script1.downloadFailEv "gpkg") (Script1.gwEvs m e url hj r) = 0 :=
      fun m e url hj r => Script1.metricCount_gwEvs (Script1.downloadFailEv "gpkg") m e url hj r
        (by decide) (by decide) (by decide) (by decide)
    cases h1 : Script1.isOkReply (env s.callIdx) <;>
      simp only [Script1.isOkReply] at h1 <;>
        simp [Script1.download_files, hne, Script1.make_request, pyStr, h1, hg0,
          metricCount_ite_ne hjg]
  · have hj0 : ∀ (m e url : String) (hj : Bool) (r : RawResult),
        metricCount (Script1.downloadFailEv "json") (Script1.gwEvs m e url hj r) = 0 :=
      fun m e url hj r => Script1.metricCount_gwEvs (Script1.downloadFailEv "json") m e url hj r
        (by decide) (by decide) (by decide) (by decide)
    cases h2 : Script1.isOkReply (env (s.callIdx + 1)) <;>
      simp only [Script1.isOkReply] at h2 <;>
        simp [Script1.download_files, hne, Script1.make_request, pyStr, h2, hj0,
          metricCount_ite_ne hgj]

/-- C7 witness: a concrete run in which both downloads succeed. -/
theorem c7_download_both_attempted_witness :
    ("https://h/files/a.gpkg" : String) ≠ "" ∧
    ∃ t, Script1.download_files (fun _ => RawResult.reply 200 []) (some "https://h/files/a.gpkg")
        ⟨Script1.initTester "https://h" "d" [], 0⟩ =
        (Script1.isOkReply (RawResult.reply 200 []) && Script1.isOkReply (RawResult.reply 200 []),
         ⟨Script1.initTester "https://h" "d" [], 2⟩, t) ∧
      callsOf t = [("GET", Script1.requestUrl "https://h" "https://h/files/a.gpkg"),
        ("GET", Script1.requestUrl "https://h" (pyReplace "https://h/files/a.gpkg" ".gpkg" ".json"))] ∧
      metricCount (Script1.downloadFailEv "gpkg") t =
        (if Script1.isOkReply (RawResult.reply 200 []) then 0 else 1) ∧
      metricCount (Script1.downloadFailEv "json") t =
        (if Script1.isOkReply (RawResult.reply 200 []) then 0 else 1) :=
  ⟨by decide,
   c7_download_both_attempted (fun _ => RawResult.reply 200 [])
     ⟨Script1.initTester "https://h" "d" [], 0⟩ "https://h/files/a.gpkg" (by decide)⟩

/-! ### C8 — health check: all four endpoints, no short-circuit -/

/-- C8 (confirmed): `check_health` always issues exactly one GET to each
of the four fixed subsystem endpoints, in order, with no short-circuit on
failure; its overall result is the conjunction of the four outcomes; and
each failing endpoint contributes exactly one `health_check` failure
metric event labelled with that endpoint. -/
theorem c8_health_all_four_checked (env : Nat → RawResult) (s : Script1.St) :
    ∃ t, Script1.check_health env s =
        (Script1.isOkReply (env s.callIdx) && Script1.isOkReply (env (s.callIdx + 1)) &&
          Script1.isOkReply (env (s.callIdx + 2)) && Script1.isOkReply (env (s.callIdx + 3)),
         { s with callIdx := s.callIdx + 4 }, t) ∧
      callsOf t =
        [("GET", Script1.requestUrl s.tester.base_url "/api/delivery/checkHealth"),
         ("GET", Script1.requestUrl s.tester.base_url "/api/device/checkHealth"),
         ("GET", Script1.requestUrl s.tester.base_url "/api/offering/checkHealth"),
         ("GET", Script1.requestUrl s.tester.base_url "/api/map/checkHealth")] ∧
      metricCount (Script1.testFailEv "health_check" "/api/delivery/checkHealth") t =
        (if Script1.isOkReply (env s.callIdx) then 0 else 1) ∧
      metricCount (Script1.testFailEv "health_check" "/api/device/checkHealth") t =
        (if Script1.isOkReply (env (s.callIdx + 1)) then 0 else 1) ∧
      metricCount (Script1.testFailEv "health_check" "/api/offering/checkHealth") t =
        (if Script1.isOkReply (env (s.callIdx + 2)) then 0 else 1) ∧
      metricCount (Script1.testFailEv "health_check" "/api/map/checkHealth") t =
        (if Script1.isOkReply (env (s.callIdx + 3)) then 0 else 1) := by
  have hf : ∀ (fr m e url : String) (hj : Bool) (r : RawResult),
      metricCount ⟨"getapp_test_failures_total", [("test_name", "health_check"), ("failure_reason", fr)]⟩
        (Script1.gwEvs m e url hj r) = 0 := by
    intro fr m e url hj r
    exact Script1.metricCount_gwEvs
      ⟨"getapp_test_failures_total", [("test_name", "health_check"), ("failure_reason", fr)]⟩
      m e url hj r (by simp) (by simp) (by simp) (by simp)
  refine ⟨(Script1.check_health env s).2.2, ?_, ?_, ?_, ?_, ?_, ?_⟩ <;>
    cases h0 : (Script1.gwRes (env s.callIdx)).2 <;>
    cases h1 : (Script1.gwRes (env (s.callIdx + 1))).2 <;>
    cases h2 : (Script1.gwRes (env (s.callIdx + 1 + 1))).2 <;>
    cases h3 : (Script1.gwRes (env (s.callIdx + 1 + 1 + 1))).2 <;>
      simp [Script1.check_health, Script1.checkHealthAux, Script1.make_request,
        Script1.healthEndpoints, Script1.isOkReply, Nat.add_assoc, h0, h1, h2, h3, hf,
        Script1.testFailEv, MetricEvent.mk.injEq]

/-! ### The status-polling loop -/

namespace Script1

theorem check_import_status_ok (env : Nat → RawResult) (s : St)
    (hid : truthyOpt s.tester.current_import_request_id = true)
    (hok : isOkReply (env s.callIdx) = true) :
    check_import_status env s =
      (bodyStatus (env s.callIdx), { s with callIdx := s.callIdx + 1 },
       gwEvs "GET" ("/api/map/import/status/" ++ pyStr s.tester.current_import_request_id)
         (requestUrl s.tester.base_url
           ("/api/map/import/status/" ++ pyStr s.tester.current_import_request_id))
         false (env s.callIdx) ++
       (if bodyStatus (env s.callIdx) ≠ some "Done" ∧ bodyStatus (env s.callIdx) ≠ some "Error"
        then [Ev.metric (importStatusFailEv (pyStr (bodyStatus (env s.callIdx))))] else [])) := by
  obtain ⟨st, b, hr, hgw, hb⟩ := gwRes_eq_of_ok hok
  rw [hr] at hgw
  simp only [check_import_status, hid, Bool.not_true, Bool.false_eq_true, if_neg, make_request,
    hr, hgw, bodyStatus]
  simp

theorem pollStatus_done (env : Nat → RawResult) (f : Nat) (s : St) :
    pollStatus env f (some "Done") s = (true, some "Done", s, []) := by
  cases f <;> simp [pollStatus]

theorem pollStatus_run (env : Nat → RawResult) :
    ∀ (N fuel : Nat) (s : St) (status : Option String),
      1 ≤ N → N ≤ fuel →
      truthyOpt s.tester.current_import_request_id = true →
      status ≠ some "Done" → status ≠ some "Error" →
      (∀ j, j < N - 1 → okNonTerminal (env (s.callIdx + j))) →
      okDone (env (s.callIdx + (N - 1))) →
      ∃ t, pollStatus env fuel status s =
          (true, some "Done", { s with callIdx := s.callIdx + N }, t) ∧
        callsOf t = List.replicate N ("GET", requestUrl s.tester.base_url
          ("/api/map/import/status/" ++ pyStr s.tester.current_import_request_id)) ∧
        sleepsOf t = List.replicate N 2 := by
  intro N
  induction N with
  | zero => intro fuel s status h1; omega
  | succ n ih =>
    intro fuel s status h1 hfuel hid hnd hne hnt hdone
    obtain ⟨f, rfl⟩ : ∃ f, fuel = f + 1 := ⟨fuel - 1, by omega⟩
    have hok0 : isOkReply (env s.callIdx) = true := by
      rcases Nat.eq_zero_or_pos n with hn | hn
      · subst hn
        simpa using hdone.1
      · exact (hnt 0 (by omega)).1
    have hguard : ¬ (status = some "Done" ∨ status = some "Error") := not_or.mpr ⟨hnd, hne⟩
    rcases Nat.eq_zero_or_pos n with hn | hn
    · subst hn
      have hst : bodyStatus (env s.callIdx) = some "Done" := by simpa using hdone.2
      have hres : pollStatus env (f + 1) status s =
          (true, some "Done", { s with callIdx := s.callIdx + (0 + 1) },
           gwEvs "GET" ("/api/map/import/status/" ++ pyStr s.tester.current_import_request_id)
             (requestUrl s.tester.base_url
               ("/api/map/import/status/" ++ pyStr s.tester.current_import_request_id))
             false (env s.callIdx) ++ [Ev.sleepFor 2]) := by
        rw [pollStatus, if_neg hguard, check_import_status_ok env s hid hok0]
        simp [hst, pollStatus_done]
      exact ⟨_, hres, by simp, by simp⟩
    · have hnt0 : okNonTerminal (env s.callIdx) := hnt 0 (by omega)
      have hst_nd : bodyStatus (env s.callIdx) ≠ some "Done" := hnt0.2.1
      have hst_ne : bodyStatus (env s.callIdx) ≠ some "Error" := hnt0.2.2
      have harith : ∀ j, s.callIdx + 1 + j = s.callIdx + (j + 1) := by omega
      obtain ⟨t2, hpoll, hcalls, hsleeps⟩ :=
        ih f { s with callIdx := s.callIdx + 1 } (bodyStatus (env s.callIdx))
          hn (by omega) (by simpa using hid) hst_nd hst_ne
          (fun j hj => by
            have := hnt (j + 1) (by omega)
            simpa [harith j] using this)
          (by
            have := hdone
            have h2 : s.callIdx + 1 + (n - 1) = s.callIdx + (n + 1 - 1) := by omega
            rw [h2]
            exact this)
      have hres : pollStatus env (f + 1) status s =
          (true, some "Done", { s with callIdx := s.callIdx + (n + 1) },
           (gwEvs "GET" ("/api/map/import/status/" ++ pyStr s.tester.current_import_request_id)
              (requestUrl s.tester.base_url
                ("/api/map/import/status/" ++ pyStr s.tester.current_import_request_id))
              false (env s.callIdx) ++
            [Ev.metric (importStatusFailEv (pyStr (bodyStatus (env s.callIdx))))]) ++
           [Ev.sleepFor 2] ++ t2) := by
        rw [pollStatus, if_neg hguard, check_import_status_ok env s hid hok0]
        simp only [if_neg hst_ne]
        have h3 : s.callIdx + 1 + n = s.callIdx + (n + 1) := by omega
        simp only [hpoll, h3] at *
        simp [hst_nd, hst_ne, hpoll]
      refine ⟨_, hres, ?_, ?_⟩
      · simp [hcalls, List.replicate_succ]
      · simp [hsleeps, List.replicate_succ]

theorem pollStatus_exhaust (env : Nat → RawResult) :
    ∀ (fuel : Nat) (s : St) (status : Option String),
      truthyOpt s.tester.current_import_request_id = true →
      status ≠ some "Done" → status ≠ some "Error" →
      (∀ j, j < fuel → okNonTerminal (env (s.callIdx + j))) →
      ∃ t st2, pollStatus env fuel status s =
          (true, st2, { s with callIdx := s.callIdx + fuel }, t) ∧
        callsOf t = List.replicate fuel ("GET", requestUrl s.tester.base_url
          ("/api/map/import/status/" ++ pyStr s.tester.current_import_request_id)) ∧
        sleepsOf t = List.replicate fuel 2 ∧
        st2 ≠ some "Done" ∧ st2 ≠ some "Error" := by
  intro fuel
  induction fuel with
  | zero =>
    intro s status hid hnd hne hnt
    exact ⟨[], status, by simp [pollStatus], by simp, by simp, hnd, hne⟩
  | succ f ih =>
    intro s status hid hnd hne hnt
    have hguard : ¬ (status = some "Done" ∨ status = some "Error") := not_or.mpr ⟨hnd, hne⟩
    have hnt0 : okNonTerminal (env s.callIdx) := hnt 0 (by omega)
    have hok0 : isOkReply (env s.callIdx) = true := hnt0.1
    have hst_nd : bodyStatus (env s.callIdx) ≠ some "Done" := hnt0.2.1
    have hst_ne : bodyStatus (env s.callIdx) ≠ some "Error" := hnt0.2.2
    obtain ⟨t2, st2, hpoll, hcalls, hsleeps, hnd2, hne2⟩ :=
      ih { s with callIdx := s.callIdx + 1 } (bodyStatus (env s.callIdx))
        (by simpa using hid) hst_nd hst_ne
        (fun j hj => by
          have := hnt (j + 1) (by omega)
          have h2 : s.callIdx + 1 + j = s.callIdx + (j + 1) := by omega
          simpa [h2] using this)
    have hres : pollStatus env (f + 1) status s =
        (true, st2, { s with callIdx := s.callIdx + (f + 1) },
         (gwEvs "GET" ("/api/map/import/status/" ++ pyStr s.tester.current_import_request_id)
            (requestUrl s.tester.base_url
              ("/api/map/import/status/" ++ pyStr s.tester.current_import_request_id))
            false (env s.callIdx) ++
          [Ev.metric (importStatusFailEv (pyStr (bodyStatus (env s.callIdx))))]) ++
         [Ev.sleepFor 2] ++ t2) := by
      rw [pollStatus, if_neg hguard, check_import_status_ok env s hid hok0]
      simp only [if_neg hst_ne]
      have h3 : s.callIdx + 1 + f = s.callIdx + (f + 1) := by omega
      simp only [hpoll, h3] at *
      simp [hst_nd, hst_ne, hpoll]
    refine ⟨_, st2, hres, ?_, ?_, hnd2, hne2⟩
    · simp [hcalls, List.replicate_succ]
    · simp [hsleeps, List.replicate_succ]

end Script1

/-! ### C1 — the import-status polling step -/

/-- C1 (counterexample): with a stub that answers `Done` on the first
status call (the claim's case N = 1), the polling loop performs 1 status
call but also 1 fixed-interval sleep — `time.sleep(2)` runs after every
status call, including the terminal one — so the claimed "exactly N-1
sleeps" (here 0) is false. -/
theorem c1_counterexample :
    (callsOf (Script1.pollStatus (fun _ => RawResult.reply 200 [("status", "Done")]) 30
        (some "Processing") ⟨⟨"https://h", none, "d", [], some "abc"⟩, 0⟩).2.2.2).length = 1 ∧
    (sleepsOf (Script1.pollStatus (fun _ => RawResult.reply 200 [("status", "Done")]) 30
        (some "Processing") ⟨⟨"https://h", none, "d", [], some "abc"⟩, 0⟩).2.2.2).length = 1 ∧
    ¬ ((callsOf (Script1.pollStatus (fun _ => RawResult.reply 200 [("status", "Done")]) 30
          (some "Processing") ⟨⟨"https://h", none, "d", [], some "abc"⟩, 0⟩).2.2.2).length = 1 ∧
       (sleepsOf (Script1.pollStatus (fun _ => RawResult.reply 200 [("status", "Done")]) 30
          (some "Processing") ⟨⟨"https://h", none, "d", [], some "abc"⟩, 0⟩).2.2.2).length = 1 - 1) := by
  decide

/-- C1 (amended): for every N with 1 ≤ N ≤ 30, if the status endpoint
returns a non-terminal status on the first N-1 calls and `Done` on the
Nth, the polling step succeeds after exactly N status calls with exactly
N sleeps of the fixed interval (a sleep follows every call, the terminal
one included); and if the endpoint never returns `Done`/`Error`, polling
stops after exactly 30 status calls (and 30 sleeps) without an abort: the
loop simply exits with a non-terminal status and the run continues. -/
theorem c1_amended (env : Nat → RawResult) (s : Script1.St) (N : Nat)
    (h1 : 1 ≤ N) (h30 : N ≤ 30)
    (hid : truthyOpt s.tester.current_import_request_id = true) :
    ((∀ j, j < N - 1 → Script1.okNonTerminal (env (s.callIdx + j))) →
      Script1.okDone (env (s.callIdx + (N - 1))) →
      ∃ t, Script1.pollStatus env 30 (some "Processing") s =
          (true, some "Done", { s with callIdx := s.callIdx + N }, t) ∧
        (callsOf t).length = N ∧ (sleepsOf t).length = N) ∧
    ((∀ j, j < 30 → Script1.okNonTerminal (env (s.callIdx + j))) →
      ∃ t st2, Script1.pollStatus env 30 (some "Processing") s =
          (true, st2, { s with callIdx := s.callIdx + 30 }, t) ∧
        (callsOf t).length = 30 ∧ (sleepsOf t).length = 30 ∧
        st2 ≠ some "Done" ∧ st2 ≠ some "Error") := by
  constructor
  · intro hnt hdone
    obtain ⟨t, hp, hc, hs⟩ := Script1.pollStatus_run env N 30 s (some "Processing")
      h1 h30 hid (by simp) (by simp) hnt hdone
    exact ⟨t, hp, by simp [hc], by simp [hs]⟩
  · intro hnt
    obtain ⟨t, st2, hp, hc, hs, hd, he⟩ := Script1.pollStatus_exhaust env 30 s (some "Processing")
      hid (by simp) (by simp) hnt
    exact ⟨t, st2, hp, by simp [hc], by simp [hs], hd, he⟩

/-- C1 witness: a stub answering `Processing` twice then `Done` (N = 3):
the poll succeeds after exactly 3 calls and 3 sleeps. -/
theorem c1_amended_witness :
    ∃ t, Script1.pollStatus
        (fun i => if i < 2 then RawResult.reply 200 [("status", "Processing")]
                  else RawResult.reply 200 [("status", "Done")]) 30
        (some "Processing") ⟨⟨"https://h", none, "d", [], some "abc"⟩, 0⟩ =
        (true, some "Done", ⟨⟨"https://h", none, "d", [], some "abc"⟩, 0 + 3⟩, t) ∧
      (callsOf t).length = 3 ∧ (sleepsOf t).length = 3 :=
  (c1_amended
    (fun i => if i < 2 then RawResult.reply 200 [("status", "Processing")]
              else RawResult.reply 200 [("status", "Done")])
    ⟨⟨"https://h", none, "d", [], some "abc"⟩, 0⟩ 3
    (by decide) (by decide) (by decide)).1 (by decide) (by decide)

@[simp] theorem callsOf_gwEvs2 (e url m : String) (r : RawResult) :
    callsOf (Script2.gwEvs e url m r) = [(m, url)] := by
  rcases r with ⟨st, b⟩ | k <;> simp [Script2.gwEvs]

/-! ### C3 — importRequestId: null until import-create, and the guards -/

/-- C3 (counterexample): in `getapp-test-script.py`, `prepare_delivery`
does not refuse to execute on a session whose `importRequestId` is still
`None`: it issues its POST (and even the follow-up GET, whose URL
interpolates the Python `None` as the literal string `None`). -/
theorem c3_counterexample :
    (⟨⟨"https://h", none, "d", [], none⟩, 0⟩ : Script1.St).tester.current_import_request_id
      = none ∧
    callsOf (Script1.prepare_delivery (fun _ => RawResult.reply 200 [("url", "/f.gpkg")])
        ⟨⟨"https://h", none, "d", [], none⟩, 0⟩).2.2 =
      [("POST", "https://h/api/delivery/prepareDelivery"),
       ("GET", "https://h/api/delivery/preparedDelivery/None")] := by
  constructor
  · rfl
  · rfl

/-- C3 (amended): `importRequestId` starts `None` in a fresh session and
stays `None` through `login` and `discovery`; a failed import-create call
leaves it unchanged.  In `getapp-test-script-2.py` the steps
`prepare_delivery`, `update_download_status` and `check_import_status`
fail fast with no HTTP call when it is not truthy.  In
`getapp-test-script.py`, however, `prepare_delivery` performs no such
check: it always issues its POST, null id or not. -/
theorem c3_amended :
    (∀ (b d : String) (bb : List String),
      (Script1.initTester b d bb).current_import_request_id = none) ∧
    (∀ (env : Nat → RawResult) (u p : Option String) (s : Script1.St),
      ((Script1.login env u p s).2.1).tester.current_import_request_id =
        s.tester.current_import_request_id) ∧
    (∀ (env : Nat → RawResult) (s : Script1.St),
      ((Script1.discovery env s).2.1).tester.current_import_request_id =
        s.tester.current_import_request_id) ∧
    (∀ (env : Nat → RawResult) (s : Script1.St),
      Script1.isOkReply (env s.callIdx) = false →
      ((Script1.import_map env s).2.1).tester.current_import_request_id =
        s.tester.current_import_request_id) ∧
    (∀ (env : Nat → RawResult) (s : Script2.St),
      truthyOpt s.tester.current_import_request_id = false →
      Script2.prepare_delivery env s = (2, s, []) ∧
      Script2.update_download_status env s = (2, s, []) ∧
      Script2.check_import_status env s = (2, s, [])) ∧
    (∀ (env : Nat → RawResult) (s : Script1.St),
      ∃ rest, callsOf (Script1.prepare_delivery env s).2.2 =
        ("POST", Script1.requestUrl s.tester.base_url "/api/delivery/prepareDelivery") :: rest) := by
  refine ⟨fun b d bb => rfl, ?_, ?_, ?_, ?_, ?_⟩
  · intro env u p s
    cases hc : (!truthyOpt u || !truthyOpt p)
    · simp only [Script1.login, hc, Script1.make_request]
      rcases hgw : Script1.gwRes (env s.callIdx) with ⟨or, ok⟩
      cases or <;> cases ok <;> simp [hgw]
    · simp [Script1.login, hc]
  · intro env s
    simp only [Script1.discovery, Script1.make_request]
    cases h : (Script1.gwRes (env s.callIdx)).2 <;> simp [h]
  · intro env s hfail
    simp only [Script1.import_map, Script1.make_request]
    rcases hgw : Script1.gwRes (env s.callIdx) with ⟨or, ok⟩
    have hok : ok = false := by
      rw [Script1.isOkReply, hgw] at hfail
      exact hfail
    subst hok
    cases or <;> simp [hgw]
  · intro env s h
    refine ⟨?_, ?_, ?_⟩ <;> simp [Script2.prepare_delivery, Script2.update_download_status,
      Script2.check_import_status, h]
  · intro env s
    simp only [Script1.prepare_delivery, Script1.make_request]
    rcases hgw : Script1.gwRes (env s.callIdx) with ⟨or, ok⟩
    cases ok
    · exact ⟨[], by simp [hgw]⟩
    · rcases hgw2 : Script1.gwRes (env (s.callIdx + 1)) with ⟨or2, ok2⟩
      cases or2 <;> cases ok2 <;>
        exact ⟨[("GET", Script1.requestUrl s.tester.base_url
            ("/api/delivery/preparedDelivery/" ++ pyStr s.tester.current_import_request_id))],
          by simp [hgw, hgw2]⟩

/-- C3 witness: a failed import-create (transport error) leaves the fresh
session's null id unchanged, and the second script's `prepare_delivery`
fails fast with no call on a null id. -/
theorem c3_amended_witness :
    ((Script1.import_map (fun _ => RawResult.exc "Timeout")
        ⟨Script1.initTester "https://h" "d" [], 0⟩).2.1).tester.current_import_request_id =
      (⟨Script1.initTester "https://h" "d" [], 0⟩ : Script1.St).tester.current_import_request_id ∧
    Script2.prepare_delivery (fun _ => RawResult.reply 200 [])
        ⟨Script2.initTester "https://h" "d" [], 0⟩ =
      (2, ⟨Script2.initTester "https://h" "d" [], 0⟩, []) :=
  ⟨c3_amended.2.2.2.1 (fun _ => RawResult.exc "Timeout")
      ⟨Script1.initTester "https://h" "d" [], 0⟩ (by decide),
   (c3_amended.2.2.2.2.1 (fun _ => RawResult.reply 200 [])
      ⟨Script2.initTester "https://h" "d" [], 0⟩ (by decide)).1⟩

/-! ### C4 — login with missing credentials -/

/-- C4 (counterexample): in `getapp-test-script-2.py` a login failure
from missing credentials does not end the run: `run_tests` still executes
every remaining test, issuing five further HTTP calls. -/
theorem c4_counterexample :
    truthyOpt (none : Option String) = false ∧
    (Script2.login (fun _ => RawResult.reply 200 [("importRequestId", "abc")]) (some "u") none
        ⟨Script2.initTester "https://h" "d" [], 0⟩).2.2 = [] ∧
    (callsOf (Script2.run_tests (fun _ => RawResult.reply 200 [("importRequestId", "abc")])
        (some "u") none ⟨Script2.initTester "https://h" "d" [], 0⟩).2.2).length = 5 := by
  refine ⟨rfl, rfl, ?_⟩
  rfl

/-- C4 (amended): with either credential absent (or empty, which Python
treats as falsy), the login step of both scripts issues no HTTP call and
fails — script 1 by raising a `ValueError`, which ends the whole run with
no step executed; script 2 by returning failure, after which `run_tests`
nevertheless continues and still issues the discovery call. -/
theorem c4_amended (env : Nat → RawResult) (u p : Option String)
    (s1 : Script1.St) (s2 : Script2.St)
    (h : truthyOpt u = false ∨ truthyOpt p = false) :
    Script1.login env u p s1 =
      (Except.error "Missing required environment variables LOGIN_USERNAME or LOGIN_PASSWORD",
       s1, []) ∧
    Script1.run_full_test env u p s1 =
      (Script1.RunOutcome.exnRaised
        "Missing required environment variables LOGIN_USERNAME or LOGIN_PASSWORD", s1, []) ∧
    Script2.login env u p s2 = (2, s2, []) ∧
    ∃ rest, callsOf (Script2.run_tests env u p s2).2.2 =
      ("POST", Script2.requestUrl s2.tester.base_url "/api/device/discover") :: rest := by
  have hb : (!truthyOpt u || !truthyOpt p) = true := by
    rcases h with h | h <;> simp [h]
  have hl1 : Script1.login env u p s1 =
      (Except.error "Missing required environment variables LOGIN_USERNAME or LOGIN_PASSWORD",
       s1, []) := by
    simp [Script1.login, hb]
  have hl2 : Script2.login env u p s2 = (2, s2, []) := by
    simp [Script2.login, hb]
  refine ⟨hl1, ?_, hl2, ?_⟩
  · simp [Script1.run_full_test, hl1]
  · simp only [Script2.run_tests, hl2]
    rcases h3 : Script2.import_map env
        { s2 with callIdx := s2.callIdx + 1 } with ⟨r3, s3, t3⟩
    rcases h4 : Script2.check_import_status env s3 with ⟨r4, s4, t4⟩
    rcases h5 : Script2.prepare_delivery env s4 with ⟨r5, s5, t5⟩
    rcases h6 : Script2.update_download_status env s5 with ⟨r6, s6, t6⟩
    exact ⟨callsOf t3 ++ (callsOf t4 ++ (callsOf t5 ++ callsOf t6)),
      by simp [Script2.discovery, Script2.make_request, h3, h4, h5, h6]⟩

/-- C4 witness: a concrete session with the password unset. -/
theorem c4_amended_witness :
    Script1.login (fun _ => RawResult.reply 200 []) (some "u") none
        ⟨Script1.initTester "https://h" "d" [], 0⟩ =
      (Except.error "Missing required environment variables LOGIN_USERNAME or LOGIN_PASSWORD",
       ⟨Script1.initTester "https://h" "d" [], 0⟩, []) ∧
    Script1.run_full_test (fun _ => RawResult.reply 200 []) (some "u") none
        ⟨Script1.initTester "https://h" "d" [], 0⟩ =
      (Script1.RunOutcome.exnRaised
        "Missing required environment variables LOGIN_USERNAME or LOGIN_PASSWORD",
       ⟨Script1.initTester "https://h" "d" [], 0⟩, []) ∧
    Script2.login (fun _ => RawResult.reply 200 []) (some "u") none
        ⟨Script2.initTester "https://h" "d" [], 0⟩ =
      (2, ⟨Script2.initTester "https://h" "d" [], 0⟩, []) ∧
    ∃ rest, callsOf (Script2.run_tests (fun _ => RawResult.reply 200 []) (some "u") none
        ⟨Script2.initTester "https://h" "d" [], 0⟩).2.2 =
      ("POST", Script2.requestUrl "https://h" "/api/device/discover") :: rest :=
  c4_amended (fun _ => RawResult.reply 200 []) (some "u") none
    ⟨Script1.initTester "https://h" "d" [], 0⟩
    ⟨Script2.initTester "https://h" "d" [], 0⟩ (by decide)

/-! ### C9 — session freshness across runs -/

theorem script1Main_length (base : String) (ids : Nat → String) (bboxes : Nat → List String)
    (envs : Nat → Nat → RawResult) (u p : Option String) :
    ∀ m, (Script1.script1Main base ids bboxes envs u p m).1.length = m := by
  intro m
  induction m with
  | zero => rfl
  | succ m ih => simp [Script1.script1Main, ih]

theorem script2StateAt_shift (envs : Nat → Nat → RawResult) (u p : Option String)
    (s0 : Script2.St) :
    ∀ k, Script2.script2StateAt (fun j => envs (j + 1)) u p
        ((Script2.run_tests (envs 0) u p { s0 with callIdx := 0 }).2.1) k =
      Script2.script2StateAt envs u p s0 (k + 1) := by
  intro k
  induction k with
  | zero => rfl
  | succ k ih => simp only [Script2.script2StateAt, ih]

theorem script2Loop_results (u p : Option String) :
    ∀ (n : Nat) (envs : Nat → Nat → RawResult) (s0 : Script2.St) (k : Nat), k < n →
      (Script2.script2Loop envs u p n s0).1[k]? =
        some (Script2.run_tests (envs k) u p
          { Script2.script2StateAt envs u p s0 k with callIdx := 0 }).1 := by
  intro n
  induction n with
  | zero => intro envs s0 k hk; omega
  | succ n ih =>
    intro envs s0 k hk
    rcases hr : Script2.run_tests (envs 0) u p { s0 with callIdx := 0 } with ⟨rs, s1, t1⟩
    rcases hl : Script2.script2Loop (fun j => envs (j + 1)) u p n s1 with ⟨rss, s2, t2⟩
    simp only [Script2.script2Loop, hr, hl]
    cases k with
    | zero =>
      simp only [List.getElem?_cons_zero, Script2.script2StateAt, hr]
    | succ k =>
      simp only [List.getElem?_cons_succ]
      have hkn : k < n := by omega
      have h1 := ih (fun j => envs (j + 1)) s1 k hkn
      rw [hl] at h1
      have h2 := script2StateAt_shift envs u p s0 k
      rw [hr] at h2
      rw [h1, h2]

/-- C9 (counterexample): in `getapp-test-script-2.py` the single
`APITester` is reused across loop iterations: after a first successful
run, the session entering the second run still carries the first run's
auth token and import-request id, instead of being a fresh session with
null fields. -/
theorem c9_counterexample :
    (Script2.initTester "https://h" "d" ["b"]).current_import_request_id = none ∧
    (Script2.initTester "https://h" "d" ["b"]).auth_token = none ∧
    (Script2.script2StateAt
        (fun _ _ => RawResult.reply 200
          [("accessToken", "tok1"), ("importRequestId", "abc123"),
           ("status", "Done"), ("url", "/f.gpkg")])
        (some "u") (some "p") ⟨Script2.initTester "https://h" "d" ["b"], 0⟩
        1).tester.current_import_request_id = some "abc123" ∧
    (Script2.script2StateAt
        (fun _ _ => RawResult.reply 200
          [("accessToken", "tok1"), ("importRequestId", "abc123"),
           ("status", "Done"), ("url", "/f.gpkg")])
        (some "u") (some "p") ⟨Script2.initTester "https://h" "d" ["b"], 0⟩
        1).tester.auth_token = some "tok1" := by
  refine ⟨rfl, rfl, ?_, ?_⟩ <;> rfl

/-- C9 (amended): in `getapp-test-script.py` every loop iteration
constructs a fresh `APITester`, so run n's outcome is exactly
`run_full_test` applied to a freshly initialized session (null token,
null import id, that run's device id and bboxes).  In
`getapp-test-script-2.py` a single `APITester` is constructed before the
loop: run k's results are `run_tests` applied to the session state left
behind by run k-1, which is never reinitialized. -/
theorem c9_amended :
    (∀ (base : String) (ids : Nat → String) (bboxes : Nat → List String)
        (envs : Nat → Nat → RawResult) (u p : Option String) (m n : Nat), n < m →
      (Script1.script1Main base ids bboxes envs u p m).1[n]? =
        some (Script1.run_full_test (envs n) u p
          ⟨Script1.initTester base (ids n) (bboxes n), 0⟩).1) ∧
    (∀ (envs : Nat → Nat → RawResult) (u p : Option String) (s0 : Script2.St) (n k : Nat),
        k < n →
      (Script2.script2Loop envs u p n s0).1[k]? =
        some (Script2.run_tests (envs k) u p
          { Script2.script2StateAt envs u p s0 k with callIdx := 0 }).1) ∧
    (∀ (envs : Nat → Nat → RawResult) (u p : Option String) (s0 : Script2.St) (k : Nat),
      Script2.script2StateAt envs u p s0 (k + 1) =
        (Script2.run_tests (envs k) u p
          { Script2.script2StateAt envs u p s0 k with callIdx := 0 }).2.1) := by
  refine ⟨?_, ?_, fun envs u p s0 k => rfl⟩
  · intro base ids bboxes envs u p m
    induction m with
    | zero => intro n h; omega
    | succ m ih =>
      intro n h
      rcases hm : Script1.script1Main base ids bboxes envs u p m with ⟨os, t⟩
      have hlen : os.length = m := by
        have := script1Main_length base ids bboxes envs u p m
        rw [hm] at this
        exact this
      rcases ho : Script1.run_full_test (envs m) u p
          ⟨Script1.initTester base (ids m) (bboxes m), 0⟩ with ⟨o, so, t9⟩
      simp only [Script1.script1Main, hm, ho]
      by_cases hn : n < m
      · rw [List.getElem?_append_left (by omega)]
        have := ih n hn
        rw [hm] at this
        exact this
      · have hnm : n = m := by omega
        subst hnm
        rw [List.getElem?_append_right (by omega), ho]
        simp [hlen]
  · intro envs u p s0 n k hk
    exact script2Loop_results u p n envs s0 k hk

/-- C9 witness: a one-iteration script-1 loop whose single run fails at
login with a transport error, starting from the fresh session. -/
theorem c9_amended_witness :
    (Script1.script1Main "https://h" (fun _ => "d") (fun _ => [])
        (fun _ _ => RawResult.exc "Timeout") (some "u") (some "p") 1).1[0]? =
      some (Script1.run_full_test (fun _ => RawResult.exc "Timeout") (some "u") (some "p")
        ⟨Script1.initTester "https://h" "d" [], 0⟩).1 :=
  c9_amended.1 "https://h" (fun _ => "d") (fun _ => [])
    (fun _ _ => RawResult.exc "Timeout") (some "u") (some "p") 1 0 (by decide)

/-! ### Characterization of the successful pipeline steps -/

namespace Script1

theorem login_ok (env : Nat → RawResult) (u p : Option String) (s : St)
    (hu : truthyOpt u = true) (hp : truthyOpt p = true)
    (hok : isOkReply (env s.callIdx) = true) :
    ∃ t, login env u p s =
        (Except.ok true,
         ⟨⟨s.tester.base_url, bodyGet (replyBody (env s.callIdx)) "accessToken",
           s.tester.device_id, s.tester.bbox_array, s.tester.current_import_request_id⟩,
          s.callIdx + 1⟩, t) ∧
      callsOf t = [("POST", requestUrl s.tester.base_url "/api/login")] := by
  obtain ⟨st, b, hr, hgw, hb⟩ := gwRes_eq_of_ok hok
  rw [hr] at hgw
  refine ⟨gwEvs "POST" "/api/login" (requestUrl s.tester.base_url "/api/login") true
    (env s.callIdx), ?_, by simp⟩
  simp only [login, hu, hp, Bool.not_true, Bool.or_self, Bool.false_eq_true, if_neg,
    make_request, hr, hgw, replyBody]
  simp

theorem discovery_ok (env : Nat → RawResult) (s : St)
    (hok : isOkReply (env s.callIdx) = true) :
    ∃ t, discovery env s = (true, ⟨s.tester, s.callIdx + 1⟩, t) ∧
      callsOf t = [("POST", requestUrl s.tester.base_url "/api/device/discover")] := by
  refine ⟨gwEvs "POST" "/api/device/discover"
    (requestUrl s.tester.base_url "/api/device/discover") true (env s.callIdx), ?_, by simp⟩
  have h : (gwRes (env s.callIdx)).2 = true := hok
  simp [discovery, make_request, h]

theorem import_map_ok (env : Nat → RawResult) (s : St)
    (hok : isOkReply (env s.callIdx) = true)
    (hok2 : isOkReply (env (s.callIdx + 1)) = true) :
    ∃ t, import_map env s =
        (true,
         ⟨⟨s.tester.base_url, s.tester.auth_token, s.tester.device_id, s.tester.bbox_array,
           bodyGet (replyBody (env s.callIdx)) "importRequestId"⟩, s.callIdx + 2⟩, t) ∧
      callsOf t = [("POST", requestUrl s.tester.base_url "/api/map/import/create"),
        ("POST", requestUrl s.tester.base_url "/api/delivery/updateDownloadStatus")] := by
  obtain ⟨st, b, hr, hgw, hb⟩ := gwRes_eq_of_ok hok
  rw [hr] at hgw
  have h2 : (gwRes (env (s.callIdx + 1))).2 = true := hok2
  refine ⟨gwEvs "POST" "/api/map/import/create"
      (requestUrl s.tester.base_url "/api/map/import/create") true (env s.callIdx) ++
    gwEvs "POST" "/api/delivery/updateDownloadStatus"
      (requestUrl s.tester.base_url "/api/delivery/updateDownloadStatus") true
      (env (s.callIdx + 1)), ?_, by simp⟩
  simp only [import_map, make_request, hr, hgw, update_download_status, replyBody]
  simp [h2]

theorem update_download_status_any (env : Nat → RawResult) (cid : Option String)
    (st0 : String) (s : St) :
    ∃ t, update_download_status env cid st0 s =
        (isOkReply (env s.callIdx), ⟨s.tester, s.callIdx + 1⟩, t) ∧
      callsOf t = [("POST", requestUrl s.tester.base_url "/api/delivery/updateDownloadStatus")] := by
  cases h : (gwRes (env s.callIdx)).2
  · refine ⟨gwEvs "POST" "/api/delivery/updateDownloadStatus"
        (requestUrl s.tester.base_url "/api/delivery/updateDownloadStatus") true (env s.callIdx) ++
      [Ev.metric (testFailEv "update_download_status" ("status_update_failed_" ++ st0))],
      ?_, by simp⟩
    simp [update_download_status, make_request, h, isOkReply]
  · refine ⟨gwEvs "POST" "/api/delivery/updateDownloadStatus"
        (requestUrl s.tester.base_url "/api/delivery/updateDownloadStatus") true (env s.callIdx),
      ?_, by simp⟩
    simp [update_download_status, make_request, h, isOkReply]

theorem prepare_delivery_first_call (env : Nat → RawResult) (s : St) :
    ∃ crest, callsOf (prepare_delivery env s).2.2 =
      ("POST", requestUrl s.tester.base_url "/api/delivery/prepareDelivery") :: crest := by
  simp only [prepare_delivery, make_request]
  rcases hgw : gwRes (env s.callIdx) with ⟨or, ok⟩
  cases ok
  · exact ⟨[], by simp [hgw]⟩
  · rcases hgw2 : gwRes (env (s.callIdx + 1)) with ⟨or2, ok2⟩
    cases or2 <;> cases ok2 <;>
      exact ⟨[("GET", requestUrl s.tester.base_url
          ("/api/delivery/preparedDelivery/" ++ pyStr s.tester.current_import_request_id))],
        by simp [hgw, hgw2]⟩

end Script1

/-! ### C2 — exhausting the poll budget does not abort the run -/

/-- C2 (counterexample): with an oracle whose status endpoint always
answers `Processing` (and whose other endpoints succeed), the retry
budget is exhausted after 30 status calls, yet the run does not abort
there: call 34 is the subsequent update-download-status POST and call 35
the prepare-delivery POST, and the outcome is not an import-status abort
— contradicting "the pipeline run aborts and none of the subsequent
steps execute". -/
theorem c2_counterexample :
    (callsOf (Script1.run_full_test
        (fun i => if i = 2 then RawResult.reply 200 [("importRequestId", "abc")]
                  else RawResult.reply 200 [("status", "Processing")])
        (some "u") (some "p") ⟨Script1.initTester "https://h" "d" [], 0⟩).2.2)[34]? =
      some ("POST", "https://h/api/delivery/updateDownloadStatus") ∧
    (callsOf (Script1.run_full_test
        (fun i => if i = 2 then RawResult.reply 200 [("importRequestId", "abc")]
                  else RawResult.reply 200 [("status", "Processing")])
        (some "u") (some "p") ⟨Script1.initTester "https://h" "d" [], 0⟩).2.2)[35]? =
      some ("POST", "https://h/api/delivery/prepareDelivery") ∧
    (Script1.run_full_test
        (fun i => if i = 2 then RawResult.reply 200 [("importRequestId", "abc")]
                  else RawResult.reply 200 [("status", "Processing")])
        (some "u") (some "p") ⟨Script1.initTester "https://h" "d" [], 0⟩).1 ≠
      Script1.RunOutcome.aborted "import_status" := by
  refine ⟨?_, ?_, ?_⟩ <;> decide

/-- C2 (amended): when login, discovery, import-create and the first
download-status update all succeed but every one of the 30 status polls
returns a non-terminal status, the run does NOT abort: polling stops
after exactly 30 status calls and the subsequent steps still execute —
the post-poll download-status update and the prepare-delivery call are
issued right after the 30 status calls, and the run's outcome is never
`aborted "import_status"`. -/
theorem c2_amended (base d : String) (bb : List String) (env : Nat → RawResult)
    (u p : Option String)
    (hu : truthyOpt u = true) (hp : truthyOpt p = true)
    (h0 : Script1.isOkReply (env 0) = true)
    (h1 : Script1.isOkReply (env 1) = true)
    (h2 : Script1.isOkReply (env 2) = true)
    (hrid : truthyOpt (bodyGet (replyBody (env 2)) "importRequestId") = true)
    (h3 : Script1.isOkReply (env 3) = true)
    (hpoll : ∀ j, j < 30 → Script1.okNonTerminal (env (4 + j))) :
    (Script1.run_full_test env u p ⟨Script1.initTester base d bb, 0⟩).1 ≠
      Script1.RunOutcome.aborted "import_status" ∧
    ∃ rest, callsOf (Script1.run_full_test env u p ⟨Script1.initTester base d bb, 0⟩).2.2 =
      ("POST", Script1.requestUrl base "/api/login") ::
      ("POST", Script1.requestUrl base "/api/device/discover") ::
      ("POST", Script1.requestUrl base "/api/map/import/create") ::
      ("POST", Script1.requestUrl base "/api/delivery/updateDownloadStatus") ::
      (List.replicate 30 ("GET", Script1.requestUrl base
          ("/api/map/import/status/" ++ pyStr (bodyGet (replyBody (env 2)) "importRequestId"))) ++
       ("POST", Script1.requestUrl base "/api/delivery/updateDownloadStatus") ::
       ("POST", Script1.requestUrl base "/api/delivery/prepareDelivery") :: rest) := by
  have hini : (⟨Script1.initTester base d bb, 0⟩ : Script1.St) = ⟨⟨base, none, d, bb, none⟩, 0⟩ :=
    rfl
  rw [hini]
  obtain ⟨t1, hL, hLc⟩ := Script1.login_ok env u p ⟨⟨base, none, d, bb, none⟩, 0⟩ hu hp h0
  simp only [Nat.reduceAdd] at hL
  obtain ⟨t2, hD, hDc⟩ := Script1.discovery_ok env
    ⟨⟨base, bodyGet (replyBody (env 0)) "accessToken", d, bb, none⟩, 1⟩ h1
  simp only [Nat.reduceAdd] at hD
  obtain ⟨t3, hI, hIc⟩ := Script1.import_map_ok env
    ⟨⟨base, bodyGet (replyBody (env 0)) "accessToken", d, bb, none⟩, 2⟩ h2 h3
  simp only [Nat.reduceAdd] at hI
  obtain ⟨t4, st2, hP, hPc, hPs, hPd, hPe⟩ := Script1.pollStatus_exhaust env 30
    ⟨⟨base, bodyGet (replyBody (env 0)) "accessToken", d, bb,
      bodyGet (replyBody (env 2)) "importRequestId"⟩, 4⟩ (some "Processing")
    hrid (by simp) (by simp) hpoll
  simp only [Nat.reduceAdd] at hP hPc
  obtain ⟨t5, hU, hUc⟩ := Script1.update_download_status_any env
    (bodyGet (replyBody (env 2)) "importRequestId") "Start"
    ⟨⟨base, bodyGet (replyBody (env 0)) "accessToken", d, bb,
      bodyGet (replyBody (env 2)) "importRequestId"⟩, 34⟩
  simp only [Nat.reduceAdd] at hU
  rcases hPr : Script1.prepare_delivery env
    ⟨⟨base, bodyGet (replyBody (env 0)) "accessToken", d, bb,
      bodyGet (replyBody (env 2)) "importRequestId"⟩, 35⟩ with ⟨res6, s6, t6⟩
  obtain ⟨crest, hPrc⟩ := Script1.prepare_delivery_first_call env
    ⟨⟨base, bodyGet (replyBody (env 0)) "accessToken", d, bb,
      bodyGet (replyBody (env 2)) "importRequestId"⟩, 35⟩
  rw [hPr] at hPrc
  simp only [Script1.run_full_test, hL, hD, hI, hP, hU, hPr]
  by_cases hu6 : truthyOpt res6 = true
  · rcases hdl : Script1.download_files env res6 s6 with ⟨okd, sd, td⟩
    rcases hup : Script1.repeatUpdates env 5 sd with ⟨sru, tru⟩
    rcases hui : Script1.update_inventory env sru with ⟨oki, si, ti⟩
    rcases hch : Script1.check_health env si with ⟨okh, sh, th⟩
    simp only [hu6, hdl, hup, hui, hch]
    cases okd
    · refine ⟨by simp, crest ++ callsOf td, ?_⟩
      simp [hLc, hDc, hIc, hPc, hUc, hPrc]
    · cases oki
      · refine ⟨by simp, crest ++ (callsOf td ++ (callsOf tru ++ callsOf ti)), ?_⟩
        simp [hLc, hDc, hIc, hPc, hUc, hPrc]
      · cases okh
        · refine ⟨by simp,
            crest ++ (callsOf td ++ (callsOf tru ++ (callsOf ti ++ callsOf th))), ?_⟩
          simp [hLc, hDc, hIc, hPc, hUc, hPrc]
        · refine ⟨by simp,
            crest ++ (callsOf td ++ (callsOf tru ++ (callsOf ti ++ callsOf th))), ?_⟩
          simp [hLc, hDc, hIc, hPc, hUc, hPrc]
  · simp only [hu6]
    refine ⟨by simp, crest, ?_⟩
    simp [hLc, hDc, hIc, hPc, hUc, hPrc]

/-- C2 witness: a concrete oracle whose import-status endpoint always
answers `Processing`: the run still reaches the post-poll steps. -/
theorem c2_amended_witness :
    (Script1.run_full_test
        (fun i => if i = 2 then RawResult.reply 200 [("importRequestId", "abc")]
                  else RawResult.reply 200 [("status", "Processing")])
        (some "u") (some "p") ⟨Script1.initTester "https://h" "d" [], 0⟩).1 ≠
      Script1.RunOutcome.aborted "import_status" ∧
    ∃ rest, callsOf (Script1.run_full_test
        (fun i => if i = 2 then RawResult.reply 200 [("importRequestId", "abc")]
                  else RawResult.reply 200 [("status", "Processing")])
        (some "u") (some "p") ⟨Script1.initTester "https://h" "d" [], 0⟩).2.2 =
      ("POST", Script1.requestUrl "https://h" "/api/login") ::
      ("POST", Script1.requestUrl "https://h" "/api/device/discover") ::
      ("POST", Script1.requestUrl "https://h" "/api/map/import/create") ::
      ("POST", Script1.requestUrl "https://h" "/api/delivery/updateDownloadStatus") ::
      (List.replicate 30 ("GET", Script1.requestUrl "https://h"
          ("/api/map/import/status/" ++ pyStr (some "abc"))) ++
       ("POST", Script1.requestUrl "https://h" "/api/delivery/updateDownloadStatus") ::
       ("POST", Script1.requestUrl "https://h" "/api/delivery/prepareDelivery") :: rest) :=
  c2_amended "https://h" "d" []
    (fun i => if i = 2 then RawResult.reply 200 [("importRequestId", "abc")]
              else RawResult.reply 200 [("status", "Processing")])
    (some "u") (some "p") (by decide) (by decide) (by decide) (by decide) (by decide)
    (by decide) (by decide) (by decide)

end GetApp
